import Mathlib

/-!
Verification of the XaunsurnDS containers (`src/xaunsurnds/core/XSQueue.py`,
`src/xaunsurnds/core/XSStack.py`) against their natural-language
specification.

Both Python classes wrap a `collections.deque` guarded by a single lock.
Every public method acquires the lock for its whole body, so each call is a
sequential, atomic transformation of the backing deque; we therefore embed a
container state as the plain list of its items, in the deque's left-to-right
order (index 0 = left end of the deque).  For the Queue this is head-to-tail
order; for the Stack it is bottom-to-top order (the top of the stack is the
LAST element of the list, because `push`/`pop` work at the right end).

Python is dynamically typed, so items are modelled by a universe `PyObj` of
Python values (including `None`, lists and tuples — the latter two are needed
because `bulk_enqueue`/`bulk_push`/`restore` inspect the argument's type with
`isinstance`).  Raising an exception is modelled with `Except`; the exception
classes that appear in the source (`IndexError`, `ValueError`, `TypeError`,
and `RuntimeError` from the deque iterator) form the type `PyErr`.
-/

set_option autoImplicit false

/-- A universe of Python values, as far as the two container classes inspect
them: `None`, integers, strings, lists and tuples.  Items stored in a
container are never inspected by the source code, so a handful of
constructors suffices to express every claim. -/
inductive PyObj : Type where
  | none : PyObj
  | int (n : Int) : PyObj
  | str (s : String) : PyObj
  | list (xs : List PyObj) : PyObj
  | tuple (xs : List PyObj) : PyObj

instance : Inhabited PyObj := ⟨PyObj.none⟩

/-- The Python exception classes raised by the source code.  The message
string is the one passed to the constructor at the raise site. -/
inductive PyErr : Type where
  | indexError (msg : String) : PyErr
  | valueError (msg : String) : PyErr
  | typeError (msg : String) : PyErr
  | runtimeError (msg : String) : PyErr
deriving DecidableEq

/-- The spec's **EmptyContainer** error kind.  The spec (§4.1, §4.2, §8)
attaches it to `dequeue`/`pop`/`duplicate_top`/`swap_top` on insufficient
elements and to bulk removal with too large a count; at every one of those
sites the source raises `IndexError`, so EmptyContainer is the spec's name
for `IndexError`. -/
def PyErr.isEmptyContainer : PyErr → Bool
  | .indexError _ => true
  | _ => false

/-- The spec's **InvalidArgument** error kind: "bulk or restore operations
receive malformed input (wrong type, non-positive count)".  The source
raises `ValueError` for a non-positive count and `TypeError` for a wrong
argument type, so InvalidArgument covers exactly those two classes. -/
def PyErr.isInvalidArgument : PyErr → Bool
  | .valueError _ => true
  | .typeError _ => true
  | _ => false

/-- `true` iff the value is a Python `list` (`isinstance(v, list)`). -/
def PyObj.isList : PyObj → Bool
  | .list _ => true
  | _ => false

/-- `true` iff the value is a Python `list` or `tuple`
(`isinstance(v, (list, tuple))`). -/
def PyObj.isListOrTuple : PyObj → Bool
  | .list _ => true
  | .tuple _ => true
  | _ => false

/-- `true` iff the computation succeeded. -/
def exIsOk {α : Type} : Except PyErr α → Bool
  | .ok _ => true
  | .error _ => false

/-- `true` iff the computation failed with the spec's EmptyContainer kind. -/
def exIsEmptyContainer {α : Type} : Except PyErr α → Bool
  | .error e => e.isEmptyContainer
  | .ok _ => false

/-- `true` iff the computation failed with the spec's InvalidArgument kind. -/
def exIsInvalidArgument {α : Type} : Except PyErr α → Bool
  | .error e => e.isInvalidArgument
  | .ok _ => false

namespace Queue

/-- `Queue.enqueue` (XSQueue.py lines 13–16): `self._items.append(item)` —
append at the right end (the tail). -/
def enqueue (q : List PyObj) (item : PyObj) : List PyObj :=
  q ++ [item]

/-- `Queue.dequeue` (XSQueue.py lines 18–23): raise
`IndexError("dequeue from empty queue")` if empty, else
`self._items.popleft()` — remove and return the left end (the head). -/
def dequeue (q : List PyObj) : Except PyErr (PyObj × List PyObj) :=
  match q with
  | [] => .error (.indexError "dequeue from empty queue")
  | x :: rest => .ok (x, rest)

/-- `Queue.peek` (XSQueue.py lines 25–28):
`self._items[0] if self._items else None` — never raises; returns the plain
value `None` when empty. -/
def peek (q : List PyObj) : PyObj :=
  match q with
  | [] => .none
  | x :: _ => x

/-- `Queue.size`: `len(self._items)`. -/
def size (q : List PyObj) : Nat :=
  q.length

/-- `Queue.clear`: `self._items.clear()`. -/
def clear (_q : List PyObj) : List PyObj :=
  []

/-- `Queue.bulk_enqueue` (XSQueue.py lines 46–50): raise
`TypeError` unless `isinstance(items, (list, tuple))`, else
`self._items.extend(items)`. -/
def bulk_enqueue (q : List PyObj) (items : PyObj) : Except PyErr (List PyObj) :=
  match items with
  | .list xs => .ok (q ++ xs)
  | .tuple xs => .ok (q ++ xs)
  | _ => .error (.typeError "bulk_enqueue expects a list or tuple of items")

/-- `Queue.bulk_dequeue` (XSQueue.py lines 52–60): `ValueError` if
`count <= 0`; `IndexError` if `count > len(self._items)`; otherwise pop
`count` items off the left end and return them head-to-tail.  The result
pairs the returned value (or the raised error) with the deque contents after
the call; on both error paths the raise happens before any mutation, so the
contents are the original ones. -/
def bulk_dequeue (q : List PyObj) (count : Int) :
    Except PyErr (List PyObj) × List PyObj :=
  if count ≤ 0 then
    (.error (.valueError "bulk_dequeue expects a positive integer"), q)
  else if count > (q.length : Int) then
    (.error (.indexError "Not enough elements in queue to dequeue"), q)
  else
    (.ok (q.take count.toNat), q.drop count.toNat)

/-- `Queue.snapshot` (XSQueue.py lines 62–65): `list(self._items)` — a fresh
Python list holding the items head-to-tail. -/
def snapshot (q : List PyObj) : PyObj :=
  .list q

/-- `Queue.restore` (XSQueue.py lines 67–72): `TypeError` unless
`isinstance(snapshot, list)`, else `self._items = deque(snapshot)` —
the contents are replaced wholesale by the snapshot, in its order. -/
def restore (_q : List PyObj) (snap : PyObj) : Except PyErr (List PyObj) :=
  match snap with
  | .list xs => .ok xs
  | _ => .error (.typeError "restore expects a list of items")

/-- `Queue.reverse`: `self._items.reverse()`. -/
def reverse (q : List PyObj) : List PyObj :=
  q.reverse

/-- `n` consecutive `dequeue` calls, collecting the returned items in call
order; the first raise aborts the sequence.  This is the "then calling
Queue.dequeue the same number of times" of the FIFO law. -/
def dequeueN : Nat → List PyObj → Except PyErr (List PyObj × List PyObj)
  | 0, q => .ok ([], q)
  | n + 1, q => do
    let (x, q₁) ← dequeue q
    let (xs, q₂) ← dequeueN n q₁
    return (x :: xs, q₂)

end Queue

namespace Stack

/-- `Stack.push` (XSStack.py lines 16–19): `self._items.append(item)` —
append at the right end; the top of the stack is the last list element. -/
def push (s : List PyObj) (item : PyObj) : List PyObj :=
  s ++ [item]

/-- `Stack.pop` (XSStack.py lines 21–26): raise
`IndexError("pop from empty stack")` if empty, else `self._items.pop()` —
remove and return the right end (the top). -/
def pop (s : List PyObj) : Except PyErr (PyObj × List PyObj) :=
  match s.getLast? with
  | Option.none => .error (.indexError "pop from empty stack")
  | Option.some x => .ok (x, s.dropLast)

/-- `Stack.peek` (XSStack.py lines 28–31):
`self._items[-1] if self._items else None` — never raises; returns the plain
value `None` when empty. -/
def peek (s : List PyObj) : PyObj :=
  match s.getLast? with
  | Option.none => .none
  | Option.some x => x

/-- `Stack.size`: `len(self._items)`. -/
def size (s : List PyObj) : Nat :=
  s.length

/-- `Stack.clear`: `self._items.clear()`. -/
def clear (_s : List PyObj) : List PyObj :=
  []

/-- `Stack.bulk_push` (XSStack.py lines 48–53): raise `TypeError` unless
`isinstance(items, (list, tuple))`, else `self._items.extend(items)` — each
item in turn becomes the new top. -/
def bulk_push (s : List PyObj) (items : PyObj) : Except PyErr (List PyObj) :=
  match items with
  | .list xs => .ok (s ++ xs)
  | .tuple xs => .ok (s ++ xs)
  | _ => .error (.typeError "bulk_push expects a list or tuple of items")

/-- `Stack.bulk_pop` (XSStack.py lines 55–63): `ValueError` if `count <= 0`;
`IndexError` if `count > len(self._items)`; otherwise pop `count` items off
the right end, topmost first.  As for the queue, the second component is the
deque contents after the call, unchanged on both error paths. -/
def bulk_pop (s : List PyObj) (count : Int) :
    Except PyErr (List PyObj) × List PyObj :=
  if count ≤ 0 then
    (.error (.valueError "bulk_pop expects a positive integer"), s)
  else if count > (s.length : Int) then
    (.error (.indexError "Not enough elements in stack to pop"), s)
  else
    (.ok (s.reverse.take count.toNat), s.take (s.length - count.toNat))

/-- `Stack.snapshot`: `list(self._items)` — bottom-to-top order. -/
def snapshot (s : List PyObj) : PyObj :=
  .list s

/-- `Stack.restore` (XSStack.py lines 70–75): `TypeError` unless
`isinstance(snapshot, list)`, else `self._items = deque(snapshot)`. -/
def restore (_s : List PyObj) (snap : PyObj) : Except PyErr (List PyObj) :=
  match snap with
  | .list xs => .ok xs
  | _ => .error (.typeError "restore expects a list of items")

/-- `Stack.duplicate_top` (XSStack.py lines 82–87): raise
`IndexError("Cannot duplicate top of empty stack")` if empty, else
`self._items.append(self._items[-1])`.  The method returns `None`, so the
pair holds the raise (if any) and the deque contents after the call; the
raise happens before any mutation. -/
def duplicate_top (s : List PyObj) : Except PyErr Unit × List PyObj :=
  match s.getLast? with
  | Option.none => (.error (.indexError "Cannot duplicate top of empty stack"), s)
  | Option.some x => (.ok (), s ++ [x])

/-- `Stack.swap_top` (XSStack.py lines 89–94): raise
`IndexError("Not enough elements to swap top")` if fewer than two elements,
else the tuple assignment
`self._items[-1], self._items[-2] = self._items[-2], self._items[-1]`:
both right-hand sides are read from the original deque, then position `-1`
and position `-2` are overwritten.  As for `duplicate_top`, the pair holds
the raise (if any) and the deque contents after the call. -/
def swap_top (s : List PyObj) : Except PyErr Unit × List PyObj :=
  if s.length < 2 then
    (.error (.indexError "Not enough elements to swap top"), s)
  else
    let a := s.getD (s.length - 2) .none
    let b := s.getD (s.length - 1) .none
    (.ok (), (s.set (s.length - 1) a).set (s.length - 2) b)

/-- `n` consecutive `pop` calls, collecting the returned items in call
order.  This is the "then calling Stack.pop the same number of times" of the
LIFO law. -/
def popN : Nat → List PyObj → Except PyErr (List PyObj × List PyObj)
  | 0, s => .ok ([], s)
  | n + 1, s => do
    let (x, s₁) ← pop s
    let (xs, s₂) ← popN n s₁
    return (x :: xs, s₂)

end Stack

/-!
### An aliasing model for `__iter__`

`Queue.__iter__` (XSQueue.py lines 84–87) is `return iter(self._items)`:
the lock is held only while the iterator object is created, and the returned
iterator is a *live* CPython deque iterator over the internal deque itself,
not over a copy.  Whether such an iterator yields the creation-time items
can only be observed under mutation between creation and consumption, so the
pure list model above cannot express it; here container objects hold a
reference into a heap of deques instead.  A CPython deque carries a mutation
counter (`state` in `collections.deque`'s C implementation); a deque
iterator records the counter at creation, and advancing the iterator after
any in-place mutation of the deque raises
`RuntimeError("deque mutated during iteration")`.  The `ver` field models
that counter.
-/

namespace Live

/-- A heap-allocated `collections.deque` object: its contents, left to
right, and its mutation counter. -/
structure Deque where
  contents : List PyObj
  ver : Nat

/-- The heap: the deque objects allocated so far, addressed by index. -/
structure Heap where
  cells : List Deque

/-- A container object (`Queue` or `Stack`): its `_items` field is a
reference to a heap cell. -/
structure DequeRef where
  ref : Nat

/-- A CPython deque iterator: the deque it walks and the deque's mutation
counter at the moment `iter` was called. -/
structure DequeIter where
  ref : Nat
  ver : Nat

/-- Read the deque object a reference points to. -/
def Heap.cell (h : Heap) (r : Nat) : Deque :=
  h.cells.getD r ⟨[], 0⟩

/-- Overwrite the deque object a reference points to (an in-place mutation
of that deque). -/
def Heap.writeCell (h : Heap) (r : Nat) (d : Deque) : Heap :=
  ⟨h.cells.set r d⟩

/-- `Queue()` / `Stack()`: allocate a fresh empty deque and return the
container holding a reference to it. -/
def newContainer (h : Heap) : Heap × DequeRef :=
  (⟨h.cells ++ [⟨[], 0⟩]⟩, ⟨h.cells.length⟩)

/-- `enqueue`/`push`: `self._items.append(item)` — an in-place mutation,
bumping the deque's mutation counter. -/
def append (h : Heap) (q : DequeRef) (item : PyObj) : Heap :=
  let d := h.cell q.ref
  h.writeCell q.ref ⟨d.contents ++ [item], d.ver + 1⟩

/-- `clear`: `self._items.clear()` — an in-place mutation of the deque,
except that CPython's `deque.clear()` returns early, without touching the
mutation counter, when the deque is already empty; a live iterator over an
empty deque therefore survives a `clear()`. -/
def clear (h : Heap) (q : DequeRef) : Heap :=
  let d := h.cell q.ref
  if d.contents.isEmpty then h
  else h.writeCell q.ref ⟨[], d.ver + 1⟩

/-- `Queue.__iter__` (XSQueue.py lines 84–87): `return iter(self._items)` —
capture the deque reference and its current mutation counter; no copy is
taken. -/
def iterQueue (h : Heap) (q : DequeRef) : DequeIter :=
  ⟨q.ref, (h.cell q.ref).ver⟩

/-- `Stack.__iter__` (XSStack.py lines 101–104):
`return iter(reversed(self._items))` — also a live iterator over the same
deque, walking right to left. -/
def iterStack (h : Heap) (s : DequeRef) : DequeIter :=
  ⟨s.ref, (h.cell s.ref).ver⟩

/-- Consume a live queue iterator to a list, in the heap state current at
consumption time: CPython yields the deque's items left to right, but raises
`RuntimeError` if the deque was mutated in place since the iterator was
created. -/
def consumeQueue (h : Heap) (it : DequeIter) : Except PyErr (List PyObj) :=
  let d := h.cell it.ref
  if d.ver = it.ver then .ok d.contents
  else .error (.runtimeError "deque mutated during iteration")

/-- Consume a live stack iterator to a list: right-to-left (top-to-bottom)
order, with the same invalidation rule. -/
def consumeStack (h : Heap) (it : DequeIter) : Except PyErr (List PyObj) :=
  let d := h.cell it.ref
  if d.ver = it.ver then .ok d.contents.reverse
  else .error (.runtimeError "deque mutated during iteration")

/-- Modelled from the spec: "the sequence produced by iterating a copy taken
atomically at iterator creation" — the copy-based snapshot semantics the
claim compares iteration against (head-to-tail, for a queue). -/
def copySnapshotQueue (h : Heap) (q : DequeRef) : List PyObj :=
  (h.cell q.ref).contents

end Live

/-! Helper lemmas about the stack operations. -/

theorem Stack.foldl_push (s : List PyObj) (xs : List PyObj) :
    List.foldl Stack.push s xs = s ++ xs := by
  induction xs generalizing s with
  | nil => simp
  | cons x xs ih => simp [Stack.push, ih]

theorem Stack.pop_concat (s : List PyObj) (x : PyObj) :
    Stack.pop (s ++ [x]) = .ok (x, s) := by
  simp [Stack.pop]

theorem Stack.popN_all (s : List PyObj) :
    Stack.popN s.length s = .ok (s.reverse, []) := by
  induction s using List.reverseRecOn with
  | nil => rfl
  | append_singleton ys a ih =>
      have hlen : (ys ++ [a]).length = ys.length + 1 := by simp
      rw [hlen]
      simp [Stack.popN, Stack.pop_concat, ih, Bind.bind, Except.bind,
        Pure.pure, Except.pure]

/-- **C2** (LIFO law).  Starting from a freshly constructed (empty) stack,
pushing the items of `xs` in order and then popping `xs.length` times
succeeds, returns exactly `xs.reverse` (the reverse of insertion order), and
leaves the stack empty. -/
theorem c2_stack_lifo_law (xs : List PyObj) :
    Stack.popN xs.length (List.foldl Stack.push [] xs) =
      .ok (xs.reverse, []) := by
  have h : List.foldl Stack.push [] xs = xs := by
    simpa using Stack.foldl_push [] xs
  rw [h]
  exact Stack.popN_all xs

/-! Helper lemmas about the queue operations. -/

theorem Queue.foldl_enqueue (q : List PyObj) (xs : List PyObj) :
    List.foldl Queue.enqueue q xs = q ++ xs := by
  induction xs generalizing q with
  | nil => simp
  | cons x xs ih => simp [Queue.enqueue, ih]

theorem Queue.dequeueN_all (q : List PyObj) :
    Queue.dequeueN q.length q = .ok (q, []) := by
  induction q with
  | nil => rfl
  | cons x rest ih =>
      simp [Queue.dequeueN, Queue.dequeue, ih, Bind.bind, Except.bind,
        Pure.pure, Except.pure]

/-- **C1** (FIFO law).  Starting from a freshly constructed (empty) queue,
enqueueing the items of `xs` in order and then dequeueing `xs.length` times
succeeds, returns exactly `xs` in its original order, and leaves the queue
empty. -/
theorem c1_queue_fifo_law (xs : List PyObj) :
    Queue.dequeueN xs.length (List.foldl Queue.enqueue [] xs) =
      .ok (xs, []) := by
  have h : List.foldl Queue.enqueue [] xs = xs := by
    simpa using Queue.foldl_enqueue [] xs
  rw [h]
  exact Queue.dequeueN_all xs

/-- **C5** (snapshot/restore round trip).  For every container state,
`restore(snapshot())` succeeds and leaves the contents exactly as they were:
`snapshot` returns the items as a fresh list in backing order (head-to-tail
for the queue, bottom-to-top for the stack) and `restore` of that list is
the identity on contents. -/
theorem c5_snapshot_restore_identity (q s : List PyObj) :
    Queue.restore q (Queue.snapshot q) = .ok q ∧
    Stack.restore s (Stack.snapshot s) = .ok s :=
  ⟨rfl, rfl⟩

/-- **C9** (duplicate_top).  On any non-empty stack (written `s ++ [x]`,
`x` on top) `duplicate_top` succeeds and appends a copy of the top item, so
the contents become `s ++ [x, x]` and the size grows by one; on the empty
stack it fails with EmptyContainer (`IndexError`) and the contents stay
empty.  In particular `[x, y]` becomes `[x, y, y]`. -/
theorem c9_duplicate_top (s : List PyObj) (x : PyObj) :
    Stack.duplicate_top (s ++ [x]) = (.ok (), s ++ [x, x]) ∧
    (s ++ [x, x]).length = (s ++ [x]).length + 1 ∧
    Stack.duplicate_top [] =
      (.error (.indexError "Cannot duplicate top of empty stack"), []) := by
  refine ⟨?_, by simp, rfl⟩
  simp [Stack.duplicate_top]

/-- **C10** (peek and the `None` sentinel).  `peek` is a total function into
`PyObj` — the source has no raise site, it never fails — and it signals
emptiness with the plain value `None`.  Consequently a queue whose front
item is the value `None`, or a stack whose top item is the value `None`,
gives the very same `peek` result as the empty container: the caller cannot
tell the two states apart from `peek()` alone. -/
theorem c10_peek_none_sentinel (rest rest' : List PyObj) :
    Queue.peek [] = PyObj.none ∧
    Queue.peek (PyObj.none :: rest) = PyObj.none ∧
    Queue.peek (PyObj.none :: rest) = Queue.peek [] ∧
    Stack.peek [] = PyObj.none ∧
    Stack.peek (rest' ++ [PyObj.none]) = PyObj.none ∧
    Stack.peek (rest' ++ [PyObj.none]) = Stack.peek [] := by
  refine ⟨rfl, rfl, rfl, rfl, ?_, ?_⟩ <;> simp [Stack.peek]

/-! Helper lemmas for `swap_top`. -/

theorem Stack.swap_top_cons (x : PyObj) (t : List PyObj) (h : 2 ≤ t.length) :
    Stack.swap_top (x :: t) = ((Stack.swap_top t).1, x :: (Stack.swap_top t).2) := by
  obtain ⟨m, hm⟩ : ∃ m, t.length = m + 2 := ⟨t.length - 2, by omega⟩
  simp only [Stack.swap_top, List.length_cons, hm]
  rw [if_neg (by omega), if_neg (by omega)]
  simp only [show m + 2 + 1 - 1 = m + 2 from rfl, show m + 2 + 1 - 2 = m + 1 from rfl,
    show m + 2 - 1 = m + 1 from rfl, show m + 2 - 2 = m from rfl]
  simp [List.getD]

theorem Stack.swap_top_concat (init : List PyObj) (a b : PyObj) :
    Stack.swap_top (init ++ [a, b]) = (.ok (), init ++ [b, a]) := by
  induction init with
  | nil => rfl
  | cons x init ih =>
      have h : 2 ≤ (init ++ [a, b]).length := by simp
      rw [List.cons_append, Stack.swap_top_cons x (init ++ [a, b]) h, ih]
      simp

/-- **C8** (swap_top).  On any stack with at least two items — written
`init ++ [a, b]`, with `b` on top and `a` just below — `swap_top` succeeds
and exchanges only the two topmost items: the contents become
`init ++ [b, a]`, so every item below the top two and the size are
unchanged.  On any stack with fewer than two items it fails with
EmptyContainer (`IndexError`) and the contents are unchanged. -/
theorem c8_swap_top (init : List PyObj) (a b : PyObj) (s : List PyObj)
    (h : s.length < 2) :
    Stack.swap_top (init ++ [a, b]) = (.ok (), init ++ [b, a]) ∧
    (init ++ [b, a]).length = (init ++ [a, b]).length ∧
    Stack.swap_top s =
      (.error (.indexError "Not enough elements to swap top"), s) := by
  refine ⟨Stack.swap_top_concat init a b, by simp, ?_⟩
  simp [Stack.swap_top, if_pos h]

/-- Witness for C8 at a concrete input: the two-element stack `[x, y]`
(`y` on top) becomes `[y, x]`, and `swap_top` on the one-element stack
`[x]` fails with `IndexError` leaving `[x]` unchanged. -/
theorem c8_swap_top_witness :
    Stack.swap_top [PyObj.int 1, PyObj.int 2] =
      (.ok (), [PyObj.int 2, PyObj.int 1]) ∧
    Stack.swap_top [PyObj.int 7] =
      (.error (.indexError "Not enough elements to swap top"),
        [PyObj.int 7]) := by
  have h := c8_swap_top [] (PyObj.int 1) (PyObj.int 2) [PyObj.int 7]
    (by decide)
  exact ⟨h.1, h.2.2⟩

/-- **C3** (removal errors and atomicity).  `dequeue`/`pop` on an empty
container fail with EmptyContainer (`IndexError`); `bulk_dequeue(n)` /
`bulk_pop(n)` fail with InvalidArgument (`ValueError`) when `n ≤ 0` and
with EmptyContainer (`IndexError`) when `n` exceeds the current size, and on
both error paths the contents are left exactly as they were (no partial
removal). -/
theorem c3_removal_errors (q s : List PyObj) (n : Int) :
    exIsEmptyContainer (Queue.dequeue []) = true ∧
    exIsEmptyContainer (Stack.pop []) = true ∧
    (n ≤ 0 →
      exIsInvalidArgument (Queue.bulk_dequeue q n).1 = true ∧
      (Queue.bulk_dequeue q n).2 = q ∧
      exIsInvalidArgument (Stack.bulk_pop s n).1 = true ∧
      (Stack.bulk_pop s n).2 = s) ∧
    (n > (q.length : Int) →
      exIsEmptyContainer (Queue.bulk_dequeue q n).1 = true ∧
      (Queue.bulk_dequeue q n).2 = q) ∧
    (n > (s.length : Int) →
      exIsEmptyContainer (Stack.bulk_pop s n).1 = true ∧
      (Stack.bulk_pop s n).2 = s) := by
  refine ⟨rfl, rfl, ?_, ?_, ?_⟩
  · intro h
    simp [Queue.bulk_dequeue, Stack.bulk_pop, if_pos h, exIsInvalidArgument,
      PyErr.isInvalidArgument]
  · intro h
    have h0 : ¬ n ≤ 0 := by omega
    simp [Queue.bulk_dequeue, if_neg h0, if_pos h, exIsEmptyContainer,
      PyErr.isEmptyContainer]
  · intro h
    have h0 : ¬ n ≤ 0 := by omega
    simp [Stack.bulk_pop, if_neg h0, if_pos h, exIsEmptyContainer,
      PyErr.isEmptyContainer]

/-- Witness for C3 at concrete inputs: on the one-element containers
`[7]`, a bulk removal with count `-1` fails with InvalidArgument and with
count `5` fails with EmptyContainer, leaving `[7]` unchanged each time. -/
theorem c3_removal_errors_witness :
    (exIsInvalidArgument (Queue.bulk_dequeue [PyObj.int 7] (-1)).1 = true ∧
      (Queue.bulk_dequeue [PyObj.int 7] (-1)).2 = [PyObj.int 7] ∧
      exIsInvalidArgument (Stack.bulk_pop [PyObj.int 7] (-1)).1 = true ∧
      (Stack.bulk_pop [PyObj.int 7] (-1)).2 = [PyObj.int 7]) ∧
    (exIsEmptyContainer (Queue.bulk_dequeue [PyObj.int 7] 5).1 = true ∧
      (Queue.bulk_dequeue [PyObj.int 7] 5).2 = [PyObj.int 7]) ∧
    (exIsEmptyContainer (Stack.bulk_pop [PyObj.int 7] 5).1 = true ∧
      (Stack.bulk_pop [PyObj.int 7] 5).2 = [PyObj.int 7]) :=
  ⟨(c3_removal_errors [PyObj.int 7] [PyObj.int 7] (-1)).2.2.1 (by decide),
   (c3_removal_errors [PyObj.int 7] [PyObj.int 7] 5).2.2.2.1 (by decide),
   (c3_removal_errors [PyObj.int 7] [PyObj.int 7] 5).2.2.2.2 (by decide)⟩

/-- **C4, counterexample.**  On the empty queue (size 0), `bulk_dequeue(1)`
— a bulk-removal count exceeding the current size — raises `IndexError`,
the spec's EmptyContainer kind, which is *not* of the InvalidArgument kind
(`ValueError`/`TypeError`); likewise `bulk_pop(1)` on the empty stack.  So
§7's classification of an excessive bulk-removal count under InvalidArgument
does not match the code. -/
theorem c4_invalid_argument_counterexample :
    (Queue.bulk_dequeue [] 1).1 =
      .error (.indexError "Not enough elements in queue to dequeue") ∧
    exIsInvalidArgument (Queue.bulk_dequeue [] 1).1 = false ∧
    (Stack.bulk_pop [] 1).1 =
      .error (.indexError "Not enough elements in stack to pop") ∧
    exIsInvalidArgument (Stack.bulk_pop [] 1).1 = false :=
  ⟨rfl, rfl, rfl, rfl⟩

/-- **C4, amended.**  A bulk-removal call whose count exceeds the current
size fails with EmptyContainer (`IndexError`) — not InvalidArgument — and
leaves the contents unchanged. -/
theorem c4_bulk_overflow_empty_container (q s : List PyObj) (n : Int)
    (hq : n > (q.length : Int)) (hs : n > (s.length : Int)) :
    exIsEmptyContainer (Queue.bulk_dequeue q n).1 = true ∧
    exIsInvalidArgument (Queue.bulk_dequeue q n).1 = false ∧
    (Queue.bulk_dequeue q n).2 = q ∧
    exIsEmptyContainer (Stack.bulk_pop s n).1 = true ∧
    exIsInvalidArgument (Stack.bulk_pop s n).1 = false ∧
    (Stack.bulk_pop s n).2 = s := by
  have hq0 : ¬ n ≤ 0 := by omega
  have hs0 : ¬ n ≤ 0 := by omega
  refine ⟨?_, ?_, ?_, ?_, ?_, ?_⟩ <;>
    simp [Queue.bulk_dequeue, Stack.bulk_pop, if_neg hq0, if_pos hq,
      if_pos hs, exIsEmptyContainer, exIsInvalidArgument,
      PyErr.isEmptyContainer, PyErr.isInvalidArgument]

/-- Witness for the amended C4 at a concrete input: `bulk_dequeue(2)` /
`bulk_pop(2)` on the one-element containers `[7]`. -/
theorem c4_bulk_overflow_empty_container_witness :
    exIsEmptyContainer (Queue.bulk_dequeue [PyObj.int 7] 2).1 = true ∧
    exIsInvalidArgument (Queue.bulk_dequeue [PyObj.int 7] 2).1 = false ∧
    (Queue.bulk_dequeue [PyObj.int 7] 2).2 = [PyObj.int 7] ∧
    exIsEmptyContainer (Stack.bulk_pop [PyObj.int 7] 2).1 = true ∧
    exIsInvalidArgument (Stack.bulk_pop [PyObj.int 7] 2).1 = false ∧
    (Stack.bulk_pop [PyObj.int 7] 2).2 = [PyObj.int 7] :=
  c4_bulk_overflow_empty_container [PyObj.int 7] [PyObj.int 7] 2
    (by decide) (by decide)

/-- **C6, counterexample.**  A tuple is an ordered sequence — indeed
`bulk_enqueue`/`bulk_push` accept it — yet `restore` of a tuple fails with
`TypeError` (`isinstance(snapshot, list)` rejects it) instead of
succeeding.  So the claim "restore succeeds on every ordered sequence,
including a tuple" does not match the code. -/
theorem c6_restore_tuple_counterexample :
    Queue.restore [] (PyObj.tuple [PyObj.int 1]) =
      .error (.typeError "restore expects a list of items") ∧
    Stack.restore [] (PyObj.tuple [PyObj.int 1]) =
      .error (.typeError "restore expects a list of items") ∧
    Queue.bulk_enqueue [] (PyObj.tuple [PyObj.int 1]) =
      .ok [PyObj.int 1] ∧
    Stack.bulk_push [] (PyObj.tuple [PyObj.int 1]) =
      .ok [PyObj.int 1] :=
  ⟨rfl, rfl, rfl, rfl⟩

/-- **C6, amended.**  `bulk_enqueue`/`bulk_push` succeed exactly on lists
and tuples, appending the items in the given order, and fail with
InvalidArgument (`TypeError`) on every other argument; `restore` succeeds
exactly on lists — a tuple is rejected like any non-list — replacing the
contents wholesale in the given order, and fails with InvalidArgument
(`TypeError`) otherwise. -/
theorem c6_bulk_insert_restore_validation (q s xs : List PyObj) (a : PyObj) :
    Queue.restore q (PyObj.list xs) = .ok xs ∧
    Stack.restore s (PyObj.list xs) = .ok xs ∧
    exIsOk (Queue.restore q a) = a.isList ∧
    exIsInvalidArgument (Queue.restore q a) = !a.isList ∧
    exIsOk (Stack.restore s a) = a.isList ∧
    exIsInvalidArgument (Stack.restore s a) = !a.isList ∧
    Queue.bulk_enqueue q (PyObj.list xs) = .ok (q ++ xs) ∧
    Queue.bulk_enqueue q (PyObj.tuple xs) = .ok (q ++ xs) ∧
    exIsOk (Queue.bulk_enqueue q a) = a.isListOrTuple ∧
    exIsInvalidArgument (Queue.bulk_enqueue q a) = !a.isListOrTuple ∧
    Stack.bulk_push s (PyObj.list xs) = .ok (s ++ xs) ∧
    Stack.bulk_push s (PyObj.tuple xs) = .ok (s ++ xs) ∧
    exIsOk (Stack.bulk_push s a) = a.isListOrTuple ∧
    exIsInvalidArgument (Stack.bulk_push s a) = !a.isListOrTuple := by
  refine ⟨rfl, rfl, ?_, ?_, ?_, ?_, rfl, rfl, ?_, ?_, rfl, rfl, ?_, ?_⟩ <;>
    cases a <;>
      simp [Queue.restore, Stack.restore, Queue.bulk_enqueue,
        Stack.bulk_push, exIsOk, exIsInvalidArgument,
        PyErr.isInvalidArgument, PyObj.isList, PyObj.isListOrTuple]

/-! Helper lemma for the aliasing model: writing a valid cell and reading it
back gives the written deque. -/

theorem Live.cell_writeCell_self (h : Live.Heap) (r : Nat) (d : Live.Deque)
    (hr : r < h.cells.length) :
    (h.writeCell r d).cell r = d := by
  simp [Live.Heap.writeCell, Live.Heap.cell, List.getD,
    List.getElem?_set_self hr]

/-- **C7, counterexample.**  Allocate a queue, enqueue `1`, create the
iterator, then `clear()` the queue before consuming it.  A copy taken
atomically at iterator creation would yield `[1]`, but the live deque
iterator the code returns is invalidated by the in-place mutation and
fails with `RuntimeError` — the sequence produced is not the one produced
by iterating an atomically-taken copy, so mutations between creation and
consumption do affect the iteration. -/
theorem c7_iteration_counterexample :
    (Live.copySnapshotQueue
        (Live.append (Live.newContainer ⟨[]⟩).1
          (Live.newContainer ⟨[]⟩).2 (PyObj.int 1))
        (Live.newContainer ⟨[]⟩).2 = [PyObj.int 1]) ∧
    ¬ (Live.consumeQueue
        (Live.clear
          (Live.append (Live.newContainer ⟨[]⟩).1
            (Live.newContainer ⟨[]⟩).2 (PyObj.int 1))
          (Live.newContainer ⟨[]⟩).2)
        (Live.iterQueue
          (Live.append (Live.newContainer ⟨[]⟩).1
            (Live.newContainer ⟨[]⟩).2 (PyObj.int 1))
          (Live.newContainer ⟨[]⟩).2) =
       .ok (Live.copySnapshotQueue
          (Live.append (Live.newContainer ⟨[]⟩).1
            (Live.newContainer ⟨[]⟩).2 (PyObj.int 1))
          (Live.newContainer ⟨[]⟩).2)) := by
  constructor
  · rfl
  · intro hEq
    have : Except.error (PyErr.runtimeError "deque mutated during iteration")
        = Except.ok [PyObj.int 1] := hEq
    exact Except.noConfusion this

/-- **C7, amended.**  `__iter__` returns a live iterator over the internal
deque, not a copy: when no mutation occurs between iterator creation and
consumption it does yield one consistent snapshot (head-to-tail for a
queue, top-to-bottom for a stack), but an in-place mutation of the deque
performed after the iterator is created and before it is consumed — any
`enqueue`/`push`, or a `clear` of a non-empty container — invalidates it,
so consumption fails with `RuntimeError` instead of yielding the
creation-time items.  `clear()` on an already-empty deque returns early
without bumping the mutation counter, so there — and only there — the
iterator survives and still yields the creation-time snapshot `[]`. -/
theorem c7_iteration_live (h : Live.Heap) (c : Live.DequeRef) (x : PyObj)
    (hc : c.ref < h.cells.length) :
    Live.consumeQueue h (Live.iterQueue h c) =
      .ok (Live.copySnapshotQueue h c) ∧
    Live.consumeStack h (Live.iterStack h c) =
      .ok (Live.copySnapshotQueue h c).reverse ∧
    ((h.cell c.ref).contents ≠ [] →
      Live.consumeQueue (Live.clear h c) (Live.iterQueue h c) =
        .error (.runtimeError "deque mutated during iteration")) ∧
    ((h.cell c.ref).contents = [] →
      Live.consumeQueue (Live.clear h c) (Live.iterQueue h c) = .ok []) ∧
    Live.consumeQueue (Live.append h c x) (Live.iterQueue h c) =
      .error (.runtimeError "deque mutated during iteration") ∧
    Live.consumeStack (Live.append h c x) (Live.iterStack h c) =
      .error (.runtimeError "deque mutated during iteration") := by
  refine ⟨?_, ?_, ?_, ?_, ?_, ?_⟩
  · simp [Live.consumeQueue, Live.iterQueue, Live.copySnapshotQueue]
  · simp [Live.consumeStack, Live.iterStack, Live.copySnapshotQueue]
  · intro hne
    have hE : (h.cell c.ref).contents.isEmpty = false := by
      cases hcontents : (h.cell c.ref).contents with
      | nil => exact absurd hcontents hne
      | cons y ys => simp
    simp [Live.consumeQueue, Live.iterQueue, Live.clear, hE,
      Live.cell_writeCell_self h c.ref _ hc]
  · intro hnil
    have hE : (h.cell c.ref).contents.isEmpty = true := by simp [hnil]
    simp [Live.consumeQueue, Live.iterQueue, Live.clear, hE, hnil]
  · simp [Live.consumeQueue, Live.iterQueue, Live.append,
      Live.cell_writeCell_self h c.ref _ hc]
  · simp [Live.consumeStack, Live.iterStack, Live.append,
      Live.cell_writeCell_self h c.ref _ hc]

/-- Witness for the amended C7 at concrete inputs: in a heap with one deque
holding `[1]` (container at cell 0) the undisturbed iterator yields `[1]`
and a `clear` invalidates it; in a heap with one empty deque the `clear` is
a no-op and the iterator still yields `[]`. -/
theorem c7_iteration_live_witness :
    Live.consumeQueue ⟨[⟨[PyObj.int 1], 0⟩]⟩
        (Live.iterQueue ⟨[⟨[PyObj.int 1], 0⟩]⟩ ⟨0⟩) =
      .ok [PyObj.int 1] ∧
    Live.consumeQueue
        (Live.clear ⟨[⟨[PyObj.int 1], 0⟩]⟩ ⟨0⟩)
        (Live.iterQueue ⟨[⟨[PyObj.int 1], 0⟩]⟩ ⟨0⟩) =
      .error (.runtimeError "deque mutated during iteration") ∧
    Live.consumeQueue
        (Live.clear ⟨[⟨[], 0⟩]⟩ ⟨0⟩)
        (Live.iterQueue ⟨[⟨[], 0⟩]⟩ ⟨0⟩) = .ok [] := by
  have h := c7_iteration_live ⟨[⟨[PyObj.int 1], 0⟩]⟩ ⟨0⟩ PyObj.none
    (by decide)
  have h0 := c7_iteration_live ⟨[⟨[], 0⟩]⟩ ⟨0⟩ PyObj.none (by decide)
  exact ⟨h.1, h.2.2.1 (List.cons_ne_nil _ _), h0.2.2.2.1 rfl⟩
